import Mathlib

/-!
Shallow embedding of `src/src/scale.c` (`avifImageScale`) from libavif.

The image state is modelled by `AvifScale.avifImage`; plane buffer pointers are
natural numbers with `0` playing the role of `NULL`, matching the C truthiness
tests on the pointers.  The external collaborators (the allocator
`avifImageAllocatePlanes`, the deallocator `avifFree`, the pixel-format lookup
`avifGetPixelFormatInfo` and the libyuv resampling kernels `ScalePlane` /
`ScalePlane_16`) are not part of `scale.c`; calls to them are recorded as an
event trace (`ScaleEvent`), and the state mutation performed by the allocator
is modelled from what the specification says about that collaborator.
-/

namespace AvifScale

/-- Diagnostic messages emitted by `avifImageScale` via `avifDiagnosticsPrintf`,
one constructor per distinct failure message in `scale.c`. -/
inductive Diag where
  | invalidDstDimensions
  | dstDimensionsTooLarge
  | invalidWidthScale
  | invalidHeightScale
  | unimplementedWithoutLibyuv
  deriving DecidableEq, Repr

/-- Observable calls `avifImageScale` makes to its collaborators, in order:
plane-group allocations, resampling-kernel invocations (with every argument the
C code passes except the fixed filter constant), buffer releases (`avifFree`)
and diagnostics. -/
inductive ScaleEvent where
  | allocYUV
  | allocAlpha
  | scalePlane16 (srcPtr srcStride srcW srcH dstPtr dstStride dstW dstH : Nat)
  | scalePlane (srcPtr srcStride srcW srcH dstPtr dstStride dstW dstH : Nat)
  | free (ptr : Nat)
  | diag (d : Diag)
  deriving DecidableEq, Repr

/-- The fields of the C `avifImage` that `avifImageScale` reads or writes.
Buffer pointers are `Nat`, with `0` for `NULL`; `yuvPlanes`/`yuvRowBytes` are
indexed by the three YUV channels (`AVIF_PLANE_COUNT_YUV = 3`, `AVIF_CHAN_Y = 0`). -/
structure avifImage where
  width : Nat
  height : Nat
  depth : Nat
  yuvPlanes : Fin 3 → Nat
  yuvRowBytes : Fin 3 → Nat
  imageOwnsYUVPlanes : Bool
  alphaPlane : Nat
  alphaRowBytes : Nat
  imageOwnsAlphaPlane : Bool
  deriving DecidableEq

/-- Result of the pixel-format collaborator `avifGetPixelFormatInfo` for the
`yuvFormat` of the image: the horizontal and vertical chroma shifts. -/
structure avifPixelFormatInfo where
  chromaShiftX : Nat
  chromaShiftY : Nat
  deriving DecidableEq

/-- Modelled from the spec: the allocator collaborator (`avifImageAllocatePlanes`,
not part of `scale.c`) hands out fresh buffers with their row strides; this
structure records the pointers and row-byte counts it would install. -/
structure Allocator where
  yuvPtr : Fin 3 → Nat
  yuvRB : Fin 3 → Nat
  alphaPtr : Nat
  alphaRB : Nat

/-- Chroma-plane dimension computation of `scale.c` lines 91-94:
`(dim + shift) >> shift` in `uint32_t` arithmetic (the sum is reduced mod 2^32). -/
def chromaDim (dim shift : Nat) : Nat :=
  ((dim + shift) % 2 ^ 32) >>> shift

/-- Destination-size guard of `scale.c` line 45:
`dstWidth > imageSizeLimit / dstHeight` with C truncating unsigned division. -/
def dstDimensionsTooLarge (dstWidth dstHeight imageSizeLimit : Nat) : Bool :=
  decide (imageSizeLimit / dstHeight < dstWidth)

/-- Detachment step of `scale.c` lines 50-71: every plane pointer is cleared,
every row-byte count zeroed, both ownership flags cleared, and the declared
dimensions replaced by the destination dimensions. -/
def detachedImage (src : avifImage) (dstWidth dstHeight : Nat) : avifImage :=
  { src with
    yuvPlanes := fun _ => 0
    yuvRowBytes := fun _ => 0
    imageOwnsYUVPlanes := false
    alphaPlane := 0
    alphaRowBytes := 0
    imageOwnsAlphaPlane := false
    width := dstWidth
    height := dstHeight }

/-- Modelled from the spec: `avifImageAllocatePlanes(image, AVIF_PLANES_YUV)`
(external collaborator) allocates fresh, owned YUV buffers for the current
dimensions of the image; the fresh pointers and strides come from the `Allocator`. -/
def allocYUVPlanes (alloc : Allocator) (image : avifImage) : avifImage :=
  { image with
    yuvPlanes := alloc.yuvPtr
    yuvRowBytes := alloc.yuvRB
    imageOwnsYUVPlanes := true }

/-- Modelled from the spec: `avifImageAllocatePlanes(image, AVIF_PLANES_A)`
(external collaborator) allocates a fresh, owned alpha buffer. -/
def allocAlphaPlane (alloc : Allocator) (image : avifImage) : avifImage :=
  { image with
    alphaPlane := alloc.alphaPtr
    alphaRowBytes := alloc.alphaRB
    imageOwnsAlphaPlane := true }

/-- Body of the per-plane loop of `scale.c` lines 96-122 for YUV plane `i`:
skip an absent plane; otherwise pick luma or chroma dimensions
(`AVIF_CHAN_Y = 0`), dispatch on `depth > 8` (halving byte strides for the
two-byte-sample path), and release the source buffer when the snapshotted
ownership flag was set. -/
def yuvPlaneEvents (depth : Nat) (srcPlanes srcRB dstPlanes dstRB : Fin 3 → Nat) (owns : Bool)
    (srcWidth srcHeight srcUVW srcUVH dstWidth dstHeight dstUVW dstUVH : Nat) (i : Fin 3) :
    List ScaleEvent :=
  if srcPlanes i = 0 then []
  else
    let srcW := if i = 0 then srcWidth else srcUVW
    let srcH := if i = 0 then srcHeight else srcUVH
    let dstW := if i = 0 then dstWidth else dstUVW
    let dstH := if i = 0 then dstHeight else dstUVH
    let ev :=
      if 8 < depth then
        ScaleEvent.scalePlane16 (srcPlanes i) (srcRB i / 2) srcW srcH
          (dstPlanes i) (dstRB i / 2) dstW dstH
      else
        ScaleEvent.scalePlane (srcPlanes i) (srcRB i) srcW srcH
          (dstPlanes i) (dstRB i) dstW dstH
    ev :: (if owns then [ScaleEvent.free (srcPlanes i)] else [])

/-- YUV block of `scale.c` lines 86-123: runs only when source plane 0 (luma)
was present; allocates the YUV group, computes chroma dimensions from the
format shifts, and processes the three planes in order.  `src` is the image as
it was on entry (the C locals `srcYUVPlanes`, `srcYUVRowBytes`,
`srcImageOwnsYUVPlanes`, `srcWidth`, `srcHeight`); `img1` is the detached image. -/
def yuvPhase (alloc : Allocator) (fi : avifPixelFormatInfo) (src img1 : avifImage)
    (dstWidth dstHeight : Nat) : avifImage × List ScaleEvent :=
  if src.yuvPlanes 0 ≠ 0 then
    let img2 := allocYUVPlanes alloc img1
    let srcUVW := chromaDim src.width fi.chromaShiftX
    let srcUVH := chromaDim src.height fi.chromaShiftY
    let dstUVW := chromaDim dstWidth fi.chromaShiftX
    let dstUVH := chromaDim dstHeight fi.chromaShiftY
    (img2, ScaleEvent.allocYUV ::
      (yuvPlaneEvents src.depth src.yuvPlanes src.yuvRowBytes img2.yuvPlanes img2.yuvRowBytes
          src.imageOwnsYUVPlanes src.width src.height srcUVW srcUVH
          dstWidth dstHeight dstUVW dstUVH 0 ++
        (yuvPlaneEvents src.depth src.yuvPlanes src.yuvRowBytes img2.yuvPlanes img2.yuvRowBytes
          src.imageOwnsYUVPlanes src.width src.height srcUVW srcUVH
          dstWidth dstHeight dstUVW dstUVH 1 ++
        yuvPlaneEvents src.depth src.yuvPlanes src.yuvRowBytes img2.yuvPlanes img2.yuvRowBytes
          src.imageOwnsYUVPlanes src.width src.height srcUVW srcUVH
          dstWidth dstHeight dstUVW dstUVH 2)))
  else (img1, [])

/-- Alpha block of `scale.c` lines 125-145: runs only when the source alpha
plane was present; allocates the alpha plane, dispatches on `depth > 8` with
the same stride convention as the YUV path, and releases the source buffer
when the snapshotted ownership flag was set. -/
def alphaPhase (alloc : Allocator) (src img2 : avifImage) (dstWidth dstHeight : Nat) :
    avifImage × List ScaleEvent :=
  if src.alphaPlane ≠ 0 then
    let img3 := allocAlphaPlane alloc img2
    let ev :=
      if 8 < src.depth then
        ScaleEvent.scalePlane16 src.alphaPlane (src.alphaRowBytes / 2) src.width src.height
          img3.alphaPlane (img3.alphaRowBytes / 2) dstWidth dstHeight
      else
        ScaleEvent.scalePlane src.alphaPlane src.alphaRowBytes src.width src.height
          img3.alphaPlane img3.alphaRowBytes dstWidth dstHeight
    (img3, ScaleEvent.allocAlpha :: ev ::
      (if src.imageOwnsAlphaPlane then [ScaleEvent.free src.alphaPlane] else []))
  else (img2, [])

/-- Scaling tail of `scale.c` lines 86-147, reached once validation and the
16384 guard have passed: YUV block, then alpha block, then `return AVIF_TRUE`. -/
def scalePhase (alloc : Allocator) (fi : avifPixelFormatInfo) (src : avifImage)
    (dstWidth dstHeight : Nat) : Bool × avifImage × List ScaleEvent :=
  let p := yuvPhase alloc fi src (detachedImage src dstWidth dstHeight) dstWidth dstHeight
  let q := alphaPhase alloc src p.1 dstWidth dstHeight
  (true, q.1, p.2 ++ q.2)

/-- `avifImageScale` of `scale.c` lines 34-148 (the `AVIF_LIBYUV_ENABLED`
build): no-op check, zero-dimension check, destination-size limit check,
detachment, post-detachment 16384 source-dimension guard (gated on source luma
or alpha presence, reading the snapshotted source dimensions), then the
scaling phases.  Returns the C return value, the final image state, and the
trace of collaborator calls. -/
def avifImageScale (alloc : Allocator) (fi : avifPixelFormatInfo) (image : avifImage)
    (dstWidth dstHeight imageSizeLimit : Nat) : Bool × avifImage × List ScaleEvent :=
  if image.width = dstWidth ∧ image.height = dstHeight then
    (true, image, [])
  else if dstWidth = 0 ∨ dstHeight = 0 then
    (false, image, [ScaleEvent.diag Diag.invalidDstDimensions])
  else if dstDimensionsTooLarge dstWidth dstHeight imageSizeLimit then
    (false, image, [ScaleEvent.diag Diag.dstDimensionsTooLarge])
  else if (image.yuvPlanes 0 ≠ 0 ∨ image.alphaPlane ≠ 0) ∧ 16384 < image.width then
    (false, detachedImage image dstWidth dstHeight, [ScaleEvent.diag Diag.invalidWidthScale])
  else if (image.yuvPlanes 0 ≠ 0 ∨ image.alphaPlane ≠ 0) ∧ 16384 < image.height then
    (false, detachedImage image dstWidth dstHeight, [ScaleEvent.diag Diag.invalidHeightScale])
  else
    scalePhase alloc fi image dstWidth dstHeight

/-- `avifImageScale` of `scale.c` lines 8-16 (the build without
`AVIF_LIBYUV_ENABLED`): unconditionally emits the unimplemented diagnostic and
returns `AVIF_FALSE`, never touching the image. -/
def avifImageScaleNoLibyuv (image : avifImage) (dstWidth dstHeight imageSizeLimit : Nat) :
    Bool × avifImage × List ScaleEvent :=
  (false, image, [ScaleEvent.diag Diag.unimplementedWithoutLibyuv])

/-- Source-buffer pointer of a resampling-kernel invocation, `none` for other
events. -/
def srcPtrOf : ScaleEvent → Option Nat
  | ScaleEvent.scalePlane16 s _ _ _ _ _ _ _ => some s
  | ScaleEvent.scalePlane s _ _ _ _ _ _ _ => some s
  | _ => none

/-- An event is an invocation of the single-byte resampling entry point. -/
def isScale8 : ScaleEvent → Bool
  | ScaleEvent.scalePlane _ _ _ _ _ _ _ _ => true
  | _ => false

/-- An event is an invocation of the two-byte resampling entry point. -/
def isScale16 : ScaleEvent → Bool
  | ScaleEvent.scalePlane16 _ _ _ _ _ _ _ _ => true
  | _ => false

/-- The trace releases buffer `p` immediately after a resampling call whose
source buffer is `p`. -/
def freedAfterScale (evs : List ScaleEvent) (p : Nat) : Prop :=
  ∃ l1 e l2, evs = l1 ++ e :: ScaleEvent.free p :: l2 ∧ srcPtrOf e = some p

/-- Example allocator handing out fresh buffers 21-24. -/
def exAlloc : Allocator :=
  { yuvPtr := ![21, 22, 23], yuvRB := ![8, 4, 4], alphaPtr := 24, alphaRB := 8 }

/-- Example 4x4 8-bit image with all planes present and owned, with distinct
buffer pointers 11-14. -/
def exImage : avifImage :=
  { width := 4, height := 4, depth := 8,
    yuvPlanes := ![11, 12, 13], yuvRowBytes := ![4, 2, 2],
    imageOwnsYUVPlanes := true,
    alphaPlane := 14, alphaRowBytes := 4, imageOwnsAlphaPlane := true }

/-- Example 10-bit variant of `exImage` (two-byte samples, doubled row bytes). -/
def exImage10 : avifImage :=
  { exImage with depth := 10, yuvRowBytes := ![8, 4, 4], alphaRowBytes := 8 }

/-- Example 20000x20000 image with planes present, exceeding the 16384 guard. -/
def bigImage : avifImage :=
  { exImage with
    width := 20000, height := 20000,
    yuvRowBytes := ![20000, 10000, 10000], alphaRowBytes := 20000 }

/-- Example 50x50 image with no planes at all. -/
def bareImage : avifImage :=
  { width := 50, height := 50, depth := 8,
    yuvPlanes := ![0, 0, 0], yuvRowBytes := ![0, 0, 0],
    imageOwnsYUVPlanes := false,
    alphaPlane := 0, alphaRowBytes := 0, imageOwnsAlphaPlane := false }

/-- Example image with luma absent but a stray chroma pointer and an alpha
plane present. -/
def chromaStrayImage : avifImage :=
  { exImage with yuvPlanes := ![0, 12, 0] }

/-! ## Helper lemmas about the branch structure and the event trace -/

lemma scalePhase_trace (alloc : Allocator) (fi : avifPixelFormatInfo) (src : avifImage)
    (dw dh : Nat) :
    (scalePhase alloc fi src dw dh).2.2 =
      (yuvPhase alloc fi src (detachedImage src dw dh) dw dh).2 ++
      (alphaPhase alloc src (yuvPhase alloc fi src (detachedImage src dw dh) dw dh).1 dw dh).2 :=
  rfl

lemma scale_eq_noop (alloc : Allocator) (fi : avifPixelFormatInfo) (image : avifImage)
    (dw dh lim : Nat) (hw : image.width = dw) (hh : image.height = dh) :
    avifImageScale alloc fi image dw dh lim = (true, image, []) := by
  unfold avifImageScale
  rw [if_pos ⟨hw, hh⟩]

lemma scale_eq_zeroDims (alloc : Allocator) (fi : avifPixelFormatInfo) (image : avifImage)
    (dw dh lim : Nat) (hno : ¬(image.width = dw ∧ image.height = dh))
    (hz : dw = 0 ∨ dh = 0) :
    avifImageScale alloc fi image dw dh lim =
      (false, image, [ScaleEvent.diag Diag.invalidDstDimensions]) := by
  unfold avifImageScale
  rw [if_neg hno, if_pos hz]

lemma scale_eq_success (alloc : Allocator) (fi : avifPixelFormatInfo) (image : avifImage)
    (dw dh lim : Nat) (hno : ¬(image.width = dw ∧ image.height = dh))
    (hz : ¬(dw = 0 ∨ dh = 0)) (hl : dstDimensionsTooLarge dw dh lim = false)
    (hw : image.width ≤ 16384) (hh : image.height ≤ 16384) :
    avifImageScale alloc fi image dw dh lim = scalePhase alloc fi image dw dh := by
  unfold avifImageScale
  rw [if_neg hno, if_neg hz, if_neg (by simp [hl]),
    if_neg (fun h => absurd h.2 (by omega)), if_neg (fun h => absurd h.2 (by omega))]

lemma scale_eq_scalePhase_of_ok (alloc : Allocator) (fi : avifPixelFormatInfo)
    (image : avifImage) (dw dh lim : Nat)
    (hno : ¬(image.width = dw ∧ image.height = dh))
    (hok : (avifImageScale alloc fi image dw dh lim).1 = true) :
    avifImageScale alloc fi image dw dh lim = scalePhase alloc fi image dw dh := by
  unfold avifImageScale at hok ⊢
  rw [if_neg hno] at hok ⊢
  by_cases hz : dw = 0 ∨ dh = 0
  · rw [if_pos hz] at hok; simp at hok
  · rw [if_neg hz] at hok ⊢
    by_cases hl : dstDimensionsTooLarge dw dh lim = true
    · rw [if_pos hl] at hok; simp at hok
    · rw [if_neg hl] at hok ⊢
      by_cases hgw : (image.yuvPlanes 0 ≠ 0 ∨ image.alphaPlane ≠ 0) ∧ 16384 < image.width
      · rw [if_pos hgw] at hok; simp at hok
      · rw [if_neg hgw] at hok ⊢
        by_cases hgh : (image.yuvPlanes 0 ≠ 0 ∨ image.alphaPlane ≠ 0) ∧ 16384 < image.height
        · rw [if_pos hgh] at hok; simp at hok
        · rw [if_neg hgh]

lemma mem_yuvPlaneEvents (depth : Nat) (sp srb dp drb : Fin 3 → Nat) (owns : Bool)
    (sw sh suw suh dw dh duw duh : Nat) (i : Fin 3) (e : ScaleEvent)
    (he : e ∈ yuvPlaneEvents depth sp srb dp drb owns sw sh suw suh dw dh duw duh i) :
    sp i ≠ 0 ∧
      (srcPtrOf e = some (sp i) ∨ (owns = true ∧ e = ScaleEvent.free (sp i))) := by
  unfold yuvPlaneEvents at he
  by_cases h0 : sp i = 0
  · simp [h0] at he
  · refine ⟨h0, ?_⟩
    rw [if_neg h0] at he
    by_cases hd : 8 < depth <;> cases owns <;>
      simp only [hd, if_true, if_false, List.mem_cons, List.mem_singleton,
        List.not_mem_nil, or_false, Bool.false_eq_true, if_pos, if_neg] at he <;>
      rcases he with rfl | rfl <;> simp [srcPtrOf]

lemma mem_yuvPhase (alloc : Allocator) (fi : avifPixelFormatInfo) (src img1 : avifImage)
    (dw dh : Nat) (e : ScaleEvent) (he : e ∈ (yuvPhase alloc fi src img1 dw dh).2) :
    src.yuvPlanes 0 ≠ 0 ∧
      (e = ScaleEvent.allocYUV ∨
        ∃ i, src.yuvPlanes i ≠ 0 ∧
          (srcPtrOf e = some (src.yuvPlanes i) ∨
            (src.imageOwnsYUVPlanes = true ∧ e = ScaleEvent.free (src.yuvPlanes i)))) := by
  unfold yuvPhase at he
  by_cases h0 : src.yuvPlanes 0 ≠ 0
  · refine ⟨h0, ?_⟩
    rw [if_pos h0] at he
    simp only [List.mem_cons, List.mem_append] at he
    rcases he with rfl | he | he | he
    · exact Or.inl rfl
    · exact Or.inr ⟨0, (mem_yuvPlaneEvents _ _ _ _ _ _ _ _ _ _ _ _ _ _ _ _ he)⟩
    · exact Or.inr ⟨1, (mem_yuvPlaneEvents _ _ _ _ _ _ _ _ _ _ _ _ _ _ _ _ he)⟩
    · exact Or.inr ⟨2, (mem_yuvPlaneEvents _ _ _ _ _ _ _ _ _ _ _ _ _ _ _ _ he)⟩
  · rw [if_neg h0] at he
    simp at he

lemma mem_alphaPhase (alloc : Allocator) (src img2 : avifImage) (dw dh : Nat)
    (e : ScaleEvent) (he : e ∈ (alphaPhase alloc src img2 dw dh).2) :
    src.alphaPlane ≠ 0 ∧
      (e = ScaleEvent.allocAlpha ∨ srcPtrOf e = some src.alphaPlane ∨
        (src.imageOwnsAlphaPlane = true ∧ e = ScaleEvent.free src.alphaPlane)) := by
  unfold alphaPhase at he
  by_cases h0 : src.alphaPlane ≠ 0
  · refine ⟨h0, ?_⟩
    rw [if_pos h0] at he
    by_cases hd : 8 < src.depth <;> cases howns : src.imageOwnsAlphaPlane <;>
      simp only [hd, howns, if_true, if_false, List.mem_cons, List.mem_singleton,
        List.not_mem_nil, or_false, Bool.false_eq_true, if_pos, if_neg] at he <;>
      rcases he with rfl | he <;> try rcases he with rfl | rfl
    all_goals simp [srcPtrOf]
  · rw [if_neg h0] at he
    simp at he

lemma mem_scalePhase (alloc : Allocator) (fi : avifPixelFormatInfo) (src : avifImage)
    (dw dh : Nat) (e : ScaleEvent) (he : e ∈ (scalePhase alloc fi src dw dh).2.2) :
    (src.yuvPlanes 0 ≠ 0 ∧
      (e = ScaleEvent.allocYUV ∨
        ∃ i, src.yuvPlanes i ≠ 0 ∧
          (srcPtrOf e = some (src.yuvPlanes i) ∨
            (src.imageOwnsYUVPlanes = true ∧ e = ScaleEvent.free (src.yuvPlanes i))))) ∨
    (src.alphaPlane ≠ 0 ∧
      (e = ScaleEvent.allocAlpha ∨ srcPtrOf e = some src.alphaPlane ∨
        (src.imageOwnsAlphaPlane = true ∧ e = ScaleEvent.free src.alphaPlane))) := by
  rw [scalePhase_trace] at he
  rcases List.mem_append.mp he with he | he
  · exact Or.inl (mem_yuvPhase _ _ _ _ _ _ _ he)
  · exact Or.inr (mem_alphaPhase _ _ _ _ _ _ he)

lemma diag_notMem_scalePhase (alloc : Allocator) (fi : avifPixelFormatInfo) (src : avifImage)
    (dw dh : Nat) (d : Diag) : ScaleEvent.diag d ∉ (scalePhase alloc fi src dw dh).2.2 := by
  intro he
  rcases mem_scalePhase _ _ _ _ _ _ he with ⟨-, h⟩ | ⟨-, h⟩
  · rcases h with h | ⟨i, -, h | ⟨-, h⟩⟩ <;> simp [srcPtrOf] at h
  · rcases h with h | h | ⟨-, h⟩ <;> simp [srcPtrOf] at h

lemma count_free_yuvPlaneEvents (depth : Nat) (sp srb dp drb : Fin 3 → Nat) (owns : Bool)
    (sw sh suw suh dw dh duw duh : Nat) (i : Fin 3) (p : Nat) :
    List.count (ScaleEvent.free p)
      (yuvPlaneEvents depth sp srb dp drb owns sw sh suw suh dw dh duw duh i) =
      if sp i ≠ 0 ∧ owns = true ∧ p = sp i then 1 else 0 := by
  unfold yuvPlaneEvents
  by_cases h0 : sp i = 0
  · simp [h0]
  · by_cases hd : 8 < depth <;> cases owns <;> by_cases hp : p = sp i <;>
      simp [h0, hd, hp, List.count_cons]

lemma count_free_yuvPhase (alloc : Allocator) (fi : avifPixelFormatInfo) (src img1 : avifImage)
    (dw dh : Nat) (p : Nat) :
    List.count (ScaleEvent.free p) (yuvPhase alloc fi src img1 dw dh).2 =
      if src.yuvPlanes 0 = 0 then 0 else
        ((if src.yuvPlanes 0 ≠ 0 ∧ src.imageOwnsYUVPlanes = true ∧ p = src.yuvPlanes 0
            then 1 else 0) +
          (if src.yuvPlanes 1 ≠ 0 ∧ src.imageOwnsYUVPlanes = true ∧ p = src.yuvPlanes 1
            then 1 else 0) +
          (if src.yuvPlanes 2 ≠ 0 ∧ src.imageOwnsYUVPlanes = true ∧ p = src.yuvPlanes 2
            then 1 else 0)) := by
  unfold yuvPhase
  by_cases h0 : src.yuvPlanes 0 ≠ 0
  · rw [if_pos h0, if_neg h0]
    simp only [List.count_cons, List.count_append, count_free_yuvPlaneEvents]
    simp only [show (ScaleEvent.allocYUV == ScaleEvent.free p) = false from rfl,
      show (ScaleEvent.free p == ScaleEvent.allocYUV) = false from rfl]
    simp [Nat.add_assoc]
  · rw [if_neg h0]
    simp only [ne_eq, not_not] at h0
    simp [h0]

lemma count_free_alphaPhase (alloc : Allocator) (src img2 : avifImage) (dw dh : Nat) (p : Nat) :
    List.count (ScaleEvent.free p) (alphaPhase alloc src img2 dw dh).2 =
      if src.alphaPlane ≠ 0 ∧ src.imageOwnsAlphaPlane = true ∧ p = src.alphaPlane
        then 1 else 0 := by
  unfold alphaPhase
  by_cases h0 : src.alphaPlane ≠ 0
  · rw [if_pos h0]
    by_cases hd : 8 < src.depth <;> cases howns : src.imageOwnsAlphaPlane <;>
      by_cases hp : p = src.alphaPlane <;>
      simp [h0, hd, howns, hp, List.count_cons]
  · rw [if_neg h0]
    simp only [ne_eq, not_not] at h0
    simp [h0]

lemma count_free_scalePhase (alloc : Allocator) (fi : avifPixelFormatInfo) (src : avifImage)
    (dw dh : Nat) (p : Nat) :
    List.count (ScaleEvent.free p) (scalePhase alloc fi src dw dh).2.2 =
      List.count (ScaleEvent.free p)
        (yuvPhase alloc fi src (detachedImage src dw dh) dw dh).2 +
      List.count (ScaleEvent.free p)
        (alphaPhase alloc src (yuvPhase alloc fi src (detachedImage src dw dh) dw dh).1 dw dh).2 := by
  rw [scalePhase_trace, List.count_append]

lemma freedAfterScale_cons (x : ScaleEvent) (l : List ScaleEvent) (p : Nat)
    (h : freedAfterScale l p) : freedAfterScale (x :: l) p := by
  obtain ⟨l1, e, l2, rfl, hsrc⟩ := h
  exact ⟨x :: l1, e, l2, rfl, hsrc⟩

lemma freedAfterScale_append_of_left (l r : List ScaleEvent) (p : Nat)
    (h : freedAfterScale l p) : freedAfterScale (l ++ r) p := by
  obtain ⟨l1, e, l2, rfl, hsrc⟩ := h
  exact ⟨l1, e, l2 ++ r, by simp, hsrc⟩

lemma freedAfterScale_append_of_right (l r : List ScaleEvent) (p : Nat)
    (h : freedAfterScale r p) : freedAfterScale (l ++ r) p := by
  obtain ⟨l1, e, l2, rfl, hsrc⟩ := h
  exact ⟨l ++ l1, e, l2, by simp, hsrc⟩

lemma freedAfterScale_yuvPlaneEvents (depth : Nat) (sp srb dp drb : Fin 3 → Nat) (owns : Bool)
    (sw sh suw suh dw dh duw duh : Nat) (i : Fin 3) (h0 : sp i ≠ 0) (howns : owns = true) :
    freedAfterScale (yuvPlaneEvents depth sp srb dp drb owns sw sh suw suh dw dh duw duh i)
      (sp i) := by
  subst howns
  unfold yuvPlaneEvents
  rw [if_neg h0]
  by_cases hd : 8 < depth
  · refine ⟨[], ScaleEvent.scalePlane16 (sp i) (srb i / 2) (if i = 0 then sw else suw)
      (if i = 0 then sh else suh) (dp i) (drb i / 2) (if i = 0 then dw else duw)
      (if i = 0 then dh else duh), [], ?_, rfl⟩
    simp [hd]
  · refine ⟨[], ScaleEvent.scalePlane (sp i) (srb i) (if i = 0 then sw else suw)
      (if i = 0 then sh else suh) (dp i) (drb i) (if i = 0 then dw else duw)
      (if i = 0 then dh else duh), [], ?_, rfl⟩
    simp [hd]

lemma freedAfterScale_yuvPhase (alloc : Allocator) (fi : avifPixelFormatInfo)
    (src img1 : avifImage) (dw dh : Nat) (i : Fin 3)
    (h0 : src.yuvPlanes 0 ≠ 0) (hi : src.yuvPlanes i ≠ 0)
    (howns : src.imageOwnsYUVPlanes = true) :
    freedAfterScale (yuvPhase alloc fi src img1 dw dh).2 (src.yuvPlanes i) := by
  unfold yuvPhase
  rw [if_pos h0]
  dsimp only
  apply freedAfterScale_cons
  fin_cases i
  · exact freedAfterScale_append_of_left _ _ _
      (freedAfterScale_yuvPlaneEvents _ _ _ _ _ _ _ _ _ _ _ _ _ _ _ hi howns)
  · exact freedAfterScale_append_of_right _ _ _ (freedAfterScale_append_of_left _ _ _
      (freedAfterScale_yuvPlaneEvents _ _ _ _ _ _ _ _ _ _ _ _ _ _ _ hi howns))
  · exact freedAfterScale_append_of_right _ _ _ (freedAfterScale_append_of_right _ _ _
      (freedAfterScale_yuvPlaneEvents _ _ _ _ _ _ _ _ _ _ _ _ _ _ _ hi howns))

lemma freedAfterScale_alphaPhase (alloc : Allocator) (src img2 : avifImage) (dw dh : Nat)
    (h0 : src.alphaPlane ≠ 0) (howns : src.imageOwnsAlphaPlane = true) :
    freedAfterScale (alphaPhase alloc src img2 dw dh).2 src.alphaPlane := by
  unfold alphaPhase
  rw [if_pos h0]
  by_cases hd : 8 < src.depth
  · refine ⟨[ScaleEvent.allocAlpha], ScaleEvent.scalePlane16 src.alphaPlane
      (src.alphaRowBytes / 2) src.width src.height alloc.alphaPtr (alloc.alphaRB / 2)
      dw dh, [], ?_, rfl⟩
    simp [hd, howns, allocAlphaPlane]
  · refine ⟨[ScaleEvent.allocAlpha], ScaleEvent.scalePlane src.alphaPlane
      src.alphaRowBytes src.width src.height alloc.alphaPtr alloc.alphaRB
      dw dh, [], ?_, rfl⟩
    simp [hd, howns, allocAlphaPlane]

lemma scale8_false_yuvPlaneEvents (depth : Nat) (sp srb dp drb : Fin 3 → Nat) (owns : Bool)
    (sw sh suw suh dw dh duw duh : Nat) (i : Fin 3) (e : ScaleEvent) (hd : 8 < depth)
    (he : e ∈ yuvPlaneEvents depth sp srb dp drb owns sw sh suw suh dw dh duw duh i) :
    isScale8 e = false := by
  unfold yuvPlaneEvents at he
  by_cases h0 : sp i = 0
  · simp [h0] at he
  · rw [if_neg h0] at he
    cases owns <;>
      simp only [hd, if_true, if_false, List.mem_cons, List.mem_singleton,
        List.not_mem_nil, or_false, Bool.false_eq_true, if_pos, if_neg] at he <;>
      rcases he with rfl | rfl <;> simp [isScale8]

lemma scale16_false_yuvPlaneEvents (depth : Nat) (sp srb dp drb : Fin 3 → Nat) (owns : Bool)
    (sw sh suw suh dw dh duw duh : Nat) (i : Fin 3) (e : ScaleEvent) (hd : ¬8 < depth)
    (he : e ∈ yuvPlaneEvents depth sp srb dp drb owns sw sh suw suh dw dh duw duh i) :
    isScale16 e = false := by
  unfold yuvPlaneEvents at he
  by_cases h0 : sp i = 0
  · simp [h0] at he
  · rw [if_neg h0] at he
    cases owns <;>
      simp only [hd, if_true, if_false, List.mem_cons, List.mem_singleton,
        List.not_mem_nil, or_false, Bool.false_eq_true, if_pos, if_neg] at he <;>
      rcases he with rfl | rfl <;> simp [isScale16]

lemma scale8_false_yuvPhase (alloc : Allocator) (fi : avifPixelFormatInfo)
    (src img1 : avifImage) (dw dh : Nat) (e : ScaleEvent) (hd : 8 < src.depth)
    (he : e ∈ (yuvPhase alloc fi src img1 dw dh).2) : isScale8 e = false := by
  unfold yuvPhase at he
  by_cases h0 : src.yuvPlanes 0 ≠ 0
  · rw [if_pos h0] at he
    simp only [List.mem_cons, List.mem_append] at he
    rcases he with rfl | he | he | he
    · simp [isScale8]
    all_goals exact scale8_false_yuvPlaneEvents _ _ _ _ _ _ _ _ _ _ _ _ _ _ _ _ hd he
  · rw [if_neg h0] at he
    simp at he

lemma scale16_false_yuvPhase (alloc : Allocator) (fi : avifPixelFormatInfo)
    (src img1 : avifImage) (dw dh : Nat) (e : ScaleEvent) (hd : ¬8 < src.depth)
    (he : e ∈ (yuvPhase alloc fi src img1 dw dh).2) : isScale16 e = false := by
  unfold yuvPhase at he
  by_cases h0 : src.yuvPlanes 0 ≠ 0
  · rw [if_pos h0] at he
    simp only [List.mem_cons, List.mem_append] at he
    rcases he with rfl | he | he | he
    · simp [isScale16]
    all_goals exact scale16_false_yuvPlaneEvents _ _ _ _ _ _ _ _ _ _ _ _ _ _ _ _ hd he
  · rw [if_neg h0] at he
    simp at he

lemma scale8_false_alphaPhase (alloc : Allocator) (src img2 : avifImage) (dw dh : Nat)
    (e : ScaleEvent) (hd : 8 < src.depth)
    (he : e ∈ (alphaPhase alloc src img2 dw dh).2) : isScale8 e = false := by
  unfold alphaPhase at he
  by_cases h0 : src.alphaPlane ≠ 0
  · rw [if_pos h0] at he
    cases howns : src.imageOwnsAlphaPlane <;>
      simp only [hd, howns, if_true, if_false, List.mem_cons, List.mem_singleton,
        List.not_mem_nil, or_false, Bool.false_eq_true, if_pos, if_neg] at he <;>
      rcases he with rfl | he <;> try rcases he with rfl | rfl
    all_goals simp [isScale8]
  · rw [if_neg h0] at he
    simp at he

lemma scale16_false_alphaPhase (alloc : Allocator) (src img2 : avifImage) (dw dh : Nat)
    (e : ScaleEvent) (hd : ¬8 < src.depth)
    (he : e ∈ (alphaPhase alloc src img2 dw dh).2) : isScale16 e = false := by
  unfold alphaPhase at he
  by_cases h0 : src.alphaPlane ≠ 0
  · rw [if_pos h0] at he
    cases howns : src.imageOwnsAlphaPlane <;>
      simp only [hd, howns, if_true, if_false, List.mem_cons, List.mem_singleton,
        List.not_mem_nil, or_false, Bool.false_eq_true, if_pos, if_neg] at he <;>
      rcases he with rfl | he <;> try rcases he with rfl | rfl
    all_goals simp [isScale16]
  · rw [if_neg h0] at he
    simp at he

lemma fin3_cases : ∀ j : Fin 3, j = 0 ∨ j = 1 ∨ j = 2 := by decide

lemma scale16_head_yuvPlaneEvents (depth : Nat) (sp srb dp drb : Fin 3 → Nat) (owns : Bool)
    (sw sh suw suh dw dh duw duh : Nat) (i : Fin 3) (hi : sp i ≠ 0) (hd : 8 < depth) :
    ScaleEvent.scalePlane16 (sp i) (srb i / 2) (if i = 0 then sw else suw)
        (if i = 0 then sh else suh) (dp i) (drb i / 2) (if i = 0 then dw else duw)
        (if i = 0 then dh else duh) ∈
      yuvPlaneEvents depth sp srb dp drb owns sw sh suw suh dw dh duw duh i := by
  unfold yuvPlaneEvents
  rw [if_neg hi]
  simp [hd]

lemma scale8_head_yuvPlaneEvents (depth : Nat) (sp srb dp drb : Fin 3 → Nat) (owns : Bool)
    (sw sh suw suh dw dh duw duh : Nat) (i : Fin 3) (hi : sp i ≠ 0) (hd : ¬8 < depth) :
    ScaleEvent.scalePlane (sp i) (srb i) (if i = 0 then sw else suw)
        (if i = 0 then sh else suh) (dp i) (drb i) (if i = 0 then dw else duw)
        (if i = 0 then dh else duh) ∈
      yuvPlaneEvents depth sp srb dp drb owns sw sh suw suh dw dh duw duh i := by
  unfold yuvPlaneEvents
  rw [if_neg hi]
  simp [hd]

lemma scale16_mem_yuvPhase (alloc : Allocator) (fi : avifPixelFormatInfo)
    (src img1 : avifImage) (dw dh : Nat) (i : Fin 3) (hi : src.yuvPlanes i ≠ 0)
    (h0 : src.yuvPlanes 0 ≠ 0) (hd : 8 < src.depth) :
    ScaleEvent.scalePlane16 (src.yuvPlanes i) (src.yuvRowBytes i / 2)
        (if i = 0 then src.width else chromaDim src.width fi.chromaShiftX)
        (if i = 0 then src.height else chromaDim src.height fi.chromaShiftY)
        (alloc.yuvPtr i) (alloc.yuvRB i / 2)
        (if i = 0 then dw else chromaDim dw fi.chromaShiftX)
        (if i = 0 then dh else chromaDim dh fi.chromaShiftY) ∈
      (yuvPhase alloc fi src img1 dw dh).2 := by
  unfold yuvPhase
  rw [if_pos h0]
  dsimp only
  rw [List.mem_cons]
  right
  rcases fin3_cases i with rfl | rfl | rfl
  · exact List.mem_append_left _
      (scale16_head_yuvPlaneEvents _ _ _ _ _ _ _ _ _ _ _ _ _ _ _ hi hd)
  · exact List.mem_append_right _ (List.mem_append_left _
      (scale16_head_yuvPlaneEvents _ _ _ _ _ _ _ _ _ _ _ _ _ _ _ hi hd))
  · exact List.mem_append_right _ (List.mem_append_right _
      (scale16_head_yuvPlaneEvents _ _ _ _ _ _ _ _ _ _ _ _ _ _ _ hi hd))

lemma scale8_mem_yuvPhase (alloc : Allocator) (fi : avifPixelFormatInfo)
    (src img1 : avifImage) (dw dh : Nat) (i : Fin 3) (hi : src.yuvPlanes i ≠ 0)
    (h0 : src.yuvPlanes 0 ≠ 0) (hd : ¬8 < src.depth) :
    ScaleEvent.scalePlane (src.yuvPlanes i) (src.yuvRowBytes i)
        (if i = 0 then src.width else chromaDim src.width fi.chromaShiftX)
        (if i = 0 then src.height else chromaDim src.height fi.chromaShiftY)
        (alloc.yuvPtr i) (alloc.yuvRB i)
        (if i = 0 then dw else chromaDim dw fi.chromaShiftX)
        (if i = 0 then dh else chromaDim dh fi.chromaShiftY) ∈
      (yuvPhase alloc fi src img1 dw dh).2 := by
  unfold yuvPhase
  rw [if_pos h0]
  dsimp only
  rw [List.mem_cons]
  right
  rcases fin3_cases i with rfl | rfl | rfl
  · exact List.mem_append_left _
      (scale8_head_yuvPlaneEvents _ _ _ _ _ _ _ _ _ _ _ _ _ _ _ hi hd)
  · exact List.mem_append_right _ (List.mem_append_left _
      (scale8_head_yuvPlaneEvents _ _ _ _ _ _ _ _ _ _ _ _ _ _ _ hi hd))
  · exact List.mem_append_right _ (List.mem_append_right _
      (scale8_head_yuvPlaneEvents _ _ _ _ _ _ _ _ _ _ _ _ _ _ _ hi hd))

lemma scale16_mem_alphaPhase (alloc : Allocator) (src img2 : avifImage) (dw dh : Nat)
    (ha : src.alphaPlane ≠ 0) (hd : 8 < src.depth) :
    ScaleEvent.scalePlane16 src.alphaPlane (src.alphaRowBytes / 2) src.width src.height
        alloc.alphaPtr (alloc.alphaRB / 2) dw dh ∈ (alphaPhase alloc src img2 dw dh).2 := by
  unfold alphaPhase
  rw [if_pos ha]
  simp [hd, allocAlphaPlane]

lemma scale8_mem_alphaPhase (alloc : Allocator) (src img2 : avifImage) (dw dh : Nat)
    (ha : src.alphaPlane ≠ 0) (hd : ¬8 < src.depth) :
    ScaleEvent.scalePlane src.alphaPlane src.alphaRowBytes src.width src.height
        alloc.alphaPtr alloc.alphaRB dw dh ∈ (alphaPhase alloc src img2 dw dh).2 := by
  unfold alphaPhase
  rw [if_pos ha]
  simp [hd, allocAlphaPlane]

lemma mem_scale_events (alloc : Allocator) (fi : avifPixelFormatInfo) (image : avifImage)
    (dw dh lim : Nat) (e : ScaleEvent)
    (he : e ∈ (avifImageScale alloc fi image dw dh lim).2.2) :
    (∃ d, e = ScaleEvent.diag d) ∨
    (image.yuvPlanes 0 ≠ 0 ∧
      (e = ScaleEvent.allocYUV ∨
        ∃ i, image.yuvPlanes i ≠ 0 ∧
          (srcPtrOf e = some (image.yuvPlanes i) ∨
            (image.imageOwnsYUVPlanes = true ∧ e = ScaleEvent.free (image.yuvPlanes i))))) ∨
    (image.alphaPlane ≠ 0 ∧
      (e = ScaleEvent.allocAlpha ∨ srcPtrOf e = some image.alphaPlane ∨
        (image.imageOwnsAlphaPlane = true ∧ e = ScaleEvent.free image.alphaPlane))) := by
  unfold avifImageScale at he
  by_cases h1 : image.width = dw ∧ image.height = dh
  · rw [if_pos h1] at he; simp at he
  · rw [if_neg h1] at he
    by_cases hz : dw = 0 ∨ dh = 0
    · rw [if_pos hz] at he; simp at he; exact Or.inl ⟨_, he⟩
    · rw [if_neg hz] at he
      by_cases hl : dstDimensionsTooLarge dw dh lim = true
      · rw [if_pos hl] at he; simp at he; exact Or.inl ⟨_, he⟩
      · rw [if_neg hl] at he
        by_cases hgw : (image.yuvPlanes 0 ≠ 0 ∨ image.alphaPlane ≠ 0) ∧ 16384 < image.width
        · rw [if_pos hgw] at he; simp at he; exact Or.inl ⟨_, he⟩
        · rw [if_neg hgw] at he
          by_cases hgh : (image.yuvPlanes 0 ≠ 0 ∨ image.alphaPlane ≠ 0) ∧
              16384 < image.height
          · rw [if_pos hgh] at he; simp at he; exact Or.inl ⟨_, he⟩
          · rw [if_neg hgh] at he
            exact Or.inr (mem_scalePhase _ _ _ _ _ _ he)

/-! ## The claims -/

/-- Claim C3: for every image and every limit, calling the rescaler with
destination dimensions equal to the current dimensions of the image returns success
and leaves every field of the image unchanged (and makes no collaborator
call). -/
theorem claim3_noop_identity (alloc : Allocator) (fi : avifPixelFormatInfo)
    (image : avifImage) (lim : Nat) :
    avifImageScale alloc fi image image.width image.height lim = (true, image, []) :=
  scale_eq_noop alloc fi image _ _ lim rfl rfl

/-- Claim C9: the no-op check precedes all validation: with equal dimensions
the call succeeds with an empty trace even under a pixel-count limit of 0, and
even for a 20000x20000 image with present planes (beyond the 16384 guard). -/
theorem claim9_noop_precedes_validation :
    (∀ (alloc : Allocator) (fi : avifPixelFormatInfo) (image : avifImage),
      (avifImageScale alloc fi image image.width image.height 0).1 = true ∧
      (avifImageScale alloc fi image image.width image.height 0).2.2 = []) ∧
    (∀ (alloc : Allocator) (fi : avifPixelFormatInfo),
      avifImageScale alloc fi bigImage 20000 20000 0 = (true, bigImage, [])) := by
  constructor
  · intro alloc fi image
    rw [scale_eq_noop alloc fi image _ _ 0 rfl rfl]
    exact ⟨rfl, rfl⟩
  · intro alloc fi
    exact scale_eq_noop _ _ _ _ _ _ rfl rfl

/-- Claim C5: with differing dimensions, a zero destination width or height is
rejected with the invalid-dimensions diagnostic and the image is returned
unchanged. -/
theorem claim5_zero_dims_rejected (alloc : Allocator) (fi : avifPixelFormatInfo)
    (image : avifImage) (dw dh lim : Nat)
    (hno : ¬(image.width = dw ∧ image.height = dh)) (hz : dw = 0 ∨ dh = 0) :
    avifImageScale alloc fi image dw dh lim =
      (false, image, [ScaleEvent.diag Diag.invalidDstDimensions]) :=
  scale_eq_zeroDims alloc fi image dw dh lim hno hz

/-- Witness for C5 at a concrete input (width 0 requested on a 4x4 image). -/
theorem claim5_witness :
    avifImageScale exAlloc ⟨1, 1⟩ exImage 0 5 100 =
      (false, exImage, [ScaleEvent.diag Diag.invalidDstDimensions]) :=
  claim5_zero_dims_rejected exAlloc ⟨1, 1⟩ exImage 0 5 100 (by decide) (by decide)

/-- Claim C8: in the build without libyuv, every call fails with the
unimplemented diagnostic and returns the image untouched (the definition never
inspects any image field). -/
theorem claim8_backend_unavailable (image : avifImage) (dw dh lim : Nat) :
    avifImageScaleNoLibyuv image dw dh lim =
      (false, image, [ScaleEvent.diag Diag.unimplementedWithoutLibyuv]) := rfl

/-- Claim C4: the overflow-avoiding guard `dstWidth > imageSizeLimit / dstHeight`
holds exactly when the exact product `dstWidth * dstHeight` exceeds the limit
(for nonzero destination dimensions); a 100x100 request fails against limit
9999 and is never rejected by the limit check against limit 10000. -/
theorem claim4_limit_guard_exact (dw dh lim : Nat) (hdw : dw ≠ 0) (hdh : dh ≠ 0) :
    (dstDimensionsTooLarge dw dh lim = true ↔ lim < dw * dh) ∧
    (∀ (alloc : Allocator) (fi : avifPixelFormatInfo) (image : avifImage),
      ¬(image.width = 100 ∧ image.height = 100) →
      (avifImageScale alloc fi image 100 100 9999).1 = false ∧
      (avifImageScale alloc fi image 100 100 9999).2.2 =
        [ScaleEvent.diag Diag.dstDimensionsTooLarge]) ∧
    (∀ (alloc : Allocator) (fi : avifPixelFormatInfo) (image : avifImage),
      ScaleEvent.diag Diag.dstDimensionsTooLarge ∉
        (avifImageScale alloc fi image 100 100 10000).2.2) := by
  refine ⟨?_, ?_, ?_⟩
  · unfold dstDimensionsTooLarge
    rw [decide_eq_true_eq]
    exact Nat.div_lt_iff_lt_mul (Nat.pos_of_ne_zero hdh)
  · intro alloc fi image hno
    have heq : avifImageScale alloc fi image 100 100 9999 =
        (false, image, [ScaleEvent.diag Diag.dstDimensionsTooLarge]) := by
      unfold avifImageScale
      rw [if_neg hno, if_neg (by decide),
        if_pos (by decide : dstDimensionsTooLarge 100 100 9999 = true)]
    rw [heq]
    exact ⟨rfl, rfl⟩
  · intro alloc fi image hmem
    by_cases hno : image.width = 100 ∧ image.height = 100
    · rw [scale_eq_noop alloc fi image _ _ _ hno.1 hno.2] at hmem
      simp at hmem
    · unfold avifImageScale at hmem
      rw [if_neg hno, if_neg (by decide),
        if_neg (by decide : ¬dstDimensionsTooLarge 100 100 10000 = true)] at hmem
      by_cases hgw : (image.yuvPlanes 0 ≠ 0 ∨ image.alphaPlane ≠ 0) ∧ 16384 < image.width
      · rw [if_pos hgw] at hmem; simp at hmem
      · rw [if_neg hgw] at hmem
        by_cases hgh : (image.yuvPlanes 0 ≠ 0 ∨ image.alphaPlane ≠ 0) ∧
            16384 < image.height
        · rw [if_pos hgh] at hmem; simp at hmem
        · rw [if_neg hgh] at hmem
          exact diag_notMem_scalePhase _ _ _ _ _ _ hmem

/-- Witness for C4 at the concrete inputs named by the claim. -/
theorem claim4_witness :
    (dstDimensionsTooLarge 100 100 9999 = true ↔ 9999 < 100 * 100) ∧
    (∀ (alloc : Allocator) (fi : avifPixelFormatInfo) (image : avifImage),
      ¬(image.width = 100 ∧ image.height = 100) →
      (avifImageScale alloc fi image 100 100 9999).1 = false ∧
      (avifImageScale alloc fi image 100 100 9999).2.2 =
        [ScaleEvent.diag Diag.dstDimensionsTooLarge]) ∧
    (∀ (alloc : Allocator) (fi : avifPixelFormatInfo) (image : avifImage),
      ScaleEvent.diag Diag.dstDimensionsTooLarge ∉
        (avifImageScale alloc fi image 100 100 10000).2.2) :=
  claim4_limit_guard_exact 100 100 9999 (by decide) (by decide)

/-- Claim C6 is false as stated for chroma shifts larger than 1: the code
computes `(dim + shift) >> shift`, but for `dim = 5, shift = 2` this yields 1
while dividing by `2^shift` rounding up yields 2. -/
theorem claim6_counterexample :
    chromaDim 5 2 = (5 + 2) >>> 2 ∧ chromaDim 5 2 = 1 ∧ (5 + 2 ^ 2 - 1) / 2 ^ 2 = 2 ∧
      chromaDim 5 2 ≠ (5 + 2 ^ 2 - 1) / 2 ^ 2 := by decide

/-- Claim C6 (amended): for chroma shifts 0 and 1 (the shifts real pixel
formats produce), and luma dimensions whose shifted sum does not wrap 32-bit
arithmetic, the computed chroma dimension `(dim + shift) >> shift` equals `dim`
divided by `2^shift` rounded up; in particular a 7x5 luma plane with shift 1 on
both axes yields 4x3 chroma planes. -/
theorem claim6_chroma_rounding (dim shift : Nat) (hs : shift ≤ 1)
    (hlt : dim + shift < 2 ^ 32) :
    chromaDim dim shift = (dim + 2 ^ shift - 1) / 2 ^ shift ∧
      chromaDim 7 1 = 4 ∧ chromaDim 5 1 = 3 := by
  refine ⟨?_, by decide, by decide⟩
  unfold chromaDim
  rw [Nat.mod_eq_of_lt hlt, Nat.shiftRight_eq_div_pow]
  interval_cases shift
  · simp
  · have h2 : dim + 2 ^ 1 - 1 = dim + 1 := by omega
    rw [h2]

/-- Witness for the amended C6 at the concrete 7-with-shift-1 input. -/
theorem claim6_witness :
    chromaDim 7 1 = (7 + 2 ^ 1 - 1) / 2 ^ 1 ∧ chromaDim 7 1 = 4 ∧ chromaDim 5 1 = 3 :=
  claim6_chroma_rounding 7 1 (by decide) (by decide)

/-- Claim C2: when a plane is present (under the data-model invariant that a
present chroma plane implies a present luma plane) and a source dimension
exceeds 16384, a request that passes the earlier validation fails, and at that
point the image is already detached: destination dimensions installed, all
plane pointers and strides cleared, both ownership flags cleared. -/
theorem claim2_guard_after_detach (alloc : Allocator) (fi : avifPixelFormatInfo)
    (image : avifImage) (dw dh lim : Nat)
    (hno : ¬(image.width = dw ∧ image.height = dh))
    (hdw : dw ≠ 0) (hdh : dh ≠ 0)
    (hlim : dstDimensionsTooLarge dw dh lim = false)
    (hpres : (∃ i, image.yuvPlanes i ≠ 0) ∨ image.alphaPlane ≠ 0)
    (hvalid : ∀ i : Fin 3, image.yuvPlanes i ≠ 0 → image.yuvPlanes 0 ≠ 0)
    (hbig : 16384 < image.width ∨ 16384 < image.height) :
    (avifImageScale alloc fi image dw dh lim).1 = false ∧
    (avifImageScale alloc fi image dw dh lim).2.1 = detachedImage image dw dh ∧
    (avifImageScale alloc fi image dw dh lim).2.1.width = dw ∧
    (avifImageScale alloc fi image dw dh lim).2.1.height = dh ∧
    (∀ i, (avifImageScale alloc fi image dw dh lim).2.1.yuvPlanes i = 0 ∧
      (avifImageScale alloc fi image dw dh lim).2.1.yuvRowBytes i = 0) ∧
    (avifImageScale alloc fi image dw dh lim).2.1.alphaPlane = 0 ∧
    (avifImageScale alloc fi image dw dh lim).2.1.alphaRowBytes = 0 ∧
    (avifImageScale alloc fi image dw dh lim).2.1.imageOwnsYUVPlanes = false ∧
    (avifImageScale alloc fi image dw dh lim).2.1.imageOwnsAlphaPlane = false := by
  have hgate : image.yuvPlanes 0 ≠ 0 ∨ image.alphaPlane ≠ 0 := by
    rcases hpres with ⟨i, hi⟩ | ha
    · exact Or.inl (hvalid i hi)
    · exact Or.inr ha
  have heq : avifImageScale alloc fi image dw dh lim =
        (false, detachedImage image dw dh, [ScaleEvent.diag Diag.invalidWidthScale]) ∨
      avifImageScale alloc fi image dw dh lim =
        (false, detachedImage image dw dh, [ScaleEvent.diag Diag.invalidHeightScale]) := by
    unfold avifImageScale
    rw [if_neg hno, if_neg (fun h => h.elim hdw hdh), if_neg (by simp [hlim])]
    by_cases hw : 16384 < image.width
    · left
      rw [if_pos ⟨hgate, hw⟩]
    · right
      rw [if_neg (fun h => hw h.2), if_pos ⟨hgate, hbig.resolve_left hw⟩]
  rcases heq with heq | heq <;> rw [heq] <;>
    exact ⟨rfl, rfl, rfl, rfl, fun i => ⟨rfl, rfl⟩, rfl, rfl, rfl, rfl⟩

/-- Claim C1: on a call that passes validation and scales successfully (under
the data-model invariants: present chroma implies present luma, and no two
present buffers alias), if `imageOwnsYUVPlanes` was set on entry then each
originally present YUV source buffer is released exactly once, immediately
after a resampling call that reads it; if the flag was clear, no original YUV
buffer is ever released, on any path.  The same holds for the alpha plane with
`imageOwnsAlphaPlane`. -/
theorem claim1_ownership_transfer (alloc : Allocator) (fi : avifPixelFormatInfo)
    (image : avifImage) (dw dh lim : Nat)
    (hvalid : ∀ i : Fin 3, image.yuvPlanes i ≠ 0 → image.yuvPlanes 0 ≠ 0)
    (hdistYUV : ∀ i j : Fin 3, i ≠ j → image.yuvPlanes i ≠ 0 → image.yuvPlanes j ≠ 0 →
      image.yuvPlanes i ≠ image.yuvPlanes j)
    (hdistA : ∀ i : Fin 3, image.yuvPlanes i ≠ 0 → image.alphaPlane ≠ image.yuvPlanes i) :
    ((avifImageScale alloc fi image dw dh lim).1 = true →
      ¬(image.width = dw ∧ image.height = dh) →
      (image.imageOwnsYUVPlanes = true → ∀ i : Fin 3, image.yuvPlanes i ≠ 0 →
        List.count (ScaleEvent.free (image.yuvPlanes i))
            (avifImageScale alloc fi image dw dh lim).2.2 = 1 ∧
          freedAfterScale (avifImageScale alloc fi image dw dh lim).2.2
            (image.yuvPlanes i)) ∧
      (image.imageOwnsAlphaPlane = true → image.alphaPlane ≠ 0 →
        List.count (ScaleEvent.free image.alphaPlane)
            (avifImageScale alloc fi image dw dh lim).2.2 = 1 ∧
          freedAfterScale (avifImageScale alloc fi image dw dh lim).2.2
            image.alphaPlane)) ∧
    (image.imageOwnsYUVPlanes = false → ∀ i : Fin 3, image.yuvPlanes i ≠ 0 →
      ScaleEvent.free (image.yuvPlanes i) ∉ (avifImageScale alloc fi image dw dh lim).2.2) ∧
    (image.imageOwnsAlphaPlane = false → image.alphaPlane ≠ 0 →
      ScaleEvent.free image.alphaPlane ∉ (avifImageScale alloc fi image dw dh lim).2.2) := by
  refine ⟨?_, ?_, ?_⟩
  · intro hok hno
    have heq := scale_eq_scalePhase_of_ok alloc fi image dw dh lim hno hok
    rw [heq]
    constructor
    · intro howns i hi
      have h0 := hvalid i hi
      constructor
      · have hcA : ¬(image.alphaPlane ≠ 0 ∧ image.imageOwnsAlphaPlane = true ∧
            image.yuvPlanes i = image.alphaPlane) := fun h => hdistA i hi h.2.2.symm
        rw [count_free_scalePhase, count_free_yuvPhase, count_free_alphaPhase,
          if_neg h0, if_neg hcA]
        rcases fin3_cases i with rfl | rfl | rfl
        · have hc0 : image.yuvPlanes 0 ≠ 0 ∧ image.imageOwnsYUVPlanes = true ∧
              image.yuvPlanes 0 = image.yuvPlanes 0 := ⟨hi, howns, rfl⟩
          have hc1 : ¬(image.yuvPlanes 1 ≠ 0 ∧ image.imageOwnsYUVPlanes = true ∧
              image.yuvPlanes 0 = image.yuvPlanes 1) :=
            fun h => hdistYUV 0 1 (by decide) hi h.1 h.2.2
          have hc2 : ¬(image.yuvPlanes 2 ≠ 0 ∧ image.imageOwnsYUVPlanes = true ∧
              image.yuvPlanes 0 = image.yuvPlanes 2) :=
            fun h => hdistYUV 0 2 (by decide) hi h.1 h.2.2
          rw [if_pos hc0, if_neg hc1, if_neg hc2]
        · have hc0 : ¬(image.yuvPlanes 0 ≠ 0 ∧ image.imageOwnsYUVPlanes = true ∧
              image.yuvPlanes 1 = image.yuvPlanes 0) :=
            fun h => hdistYUV 1 0 (by decide) hi h.1 h.2.2
          have hc1 : image.yuvPlanes 1 ≠ 0 ∧ image.imageOwnsYUVPlanes = true ∧
              image.yuvPlanes 1 = image.yuvPlanes 1 := ⟨hi, howns, rfl⟩
          have hc2 : ¬(image.yuvPlanes 2 ≠ 0 ∧ image.imageOwnsYUVPlanes = true ∧
              image.yuvPlanes 1 = image.yuvPlanes 2) :=
            fun h => hdistYUV 1 2 (by decide) hi h.1 h.2.2
          rw [if_neg hc0, if_pos hc1, if_neg hc2]
        · have hc0 : ¬(image.yuvPlanes 0 ≠ 0 ∧ image.imageOwnsYUVPlanes = true ∧
              image.yuvPlanes 2 = image.yuvPlanes 0) :=
            fun h => hdistYUV 2 0 (by decide) hi h.1 h.2.2
          have hc1 : ¬(image.yuvPlanes 1 ≠ 0 ∧ image.imageOwnsYUVPlanes = true ∧
              image.yuvPlanes 2 = image.yuvPlanes 1) :=
            fun h => hdistYUV 2 1 (by decide) hi h.1 h.2.2
          have hc2 : image.yuvPlanes 2 ≠ 0 ∧ image.imageOwnsYUVPlanes = true ∧
              image.yuvPlanes 2 = image.yuvPlanes 2 := ⟨hi, howns, rfl⟩
          rw [if_neg hc0, if_neg hc1, if_pos hc2]
      · rw [scalePhase_trace]
        exact freedAfterScale_append_of_left _ _ _
          (freedAfterScale_yuvPhase alloc fi image _ dw dh i h0 hi howns)
    · intro howns ha
      constructor
      · have hcA : image.alphaPlane ≠ 0 ∧ image.imageOwnsAlphaPlane = true ∧
            image.alphaPlane = image.alphaPlane := ⟨ha, howns, rfl⟩
        rw [count_free_scalePhase, count_free_yuvPhase, count_free_alphaPhase, if_pos hcA]
        by_cases h0 : image.yuvPlanes 0 = 0
        · rw [if_pos h0]
        · have hc0 : ¬(image.yuvPlanes 0 ≠ 0 ∧ image.imageOwnsYUVPlanes = true ∧
              image.alphaPlane = image.yuvPlanes 0) := fun h => hdistA 0 h.1 h.2.2
          have hc1 : ¬(image.yuvPlanes 1 ≠ 0 ∧ image.imageOwnsYUVPlanes = true ∧
              image.alphaPlane = image.yuvPlanes 1) := fun h => hdistA 1 h.1 h.2.2
          have hc2 : ¬(image.yuvPlanes 2 ≠ 0 ∧ image.imageOwnsYUVPlanes = true ∧
              image.alphaPlane = image.yuvPlanes 2) := fun h => hdistA 2 h.1 h.2.2
          rw [if_neg h0, if_neg hc0, if_neg hc1, if_neg hc2]
      · rw [scalePhase_trace]
        exact freedAfterScale_append_of_right _ _ _
          (freedAfterScale_alphaPhase alloc image _ dw dh ha howns)
  · intro howns i hi hmem
    rcases mem_scale_events alloc fi image dw dh lim _ hmem with ⟨d, hd⟩ | ⟨-, h⟩ | ⟨-, h⟩
    · exact ScaleEvent.noConfusion hd
    · rcases h with h | ⟨j, hj, h | ⟨ho, h⟩⟩
      · exact ScaleEvent.noConfusion h
      · simp [srcPtrOf] at h
      · rw [howns] at ho
        exact Bool.noConfusion ho
    · rcases h with h | h | ⟨ho, h⟩
      · exact ScaleEvent.noConfusion h
      · simp [srcPtrOf] at h
      · injection h with h2
        exact hdistA i hi h2.symm
  · intro howns ha hmem
    rcases mem_scale_events alloc fi image dw dh lim _ hmem with ⟨d, hd⟩ | ⟨-, h⟩ | ⟨-, h⟩
    · exact ScaleEvent.noConfusion hd
    · rcases h with h | ⟨j, hj, h | ⟨ho, h⟩⟩
      · exact ScaleEvent.noConfusion h
      · simp [srcPtrOf] at h
      · injection h with h2
        exact hdistA j hj h2
    · rcases h with h | h | ⟨ho, h⟩
      · exact ScaleEvent.noConfusion h
      · simp [srcPtrOf] at h
      · rw [howns] at ho
        exact Bool.noConfusion ho

/-- Witness for C1: on the owned 4x4 example scaled to 2x2, the luma source
buffer is released exactly once, right after its resampling call. -/
theorem claim1_witness :
    List.count (ScaleEvent.free (exImage.yuvPlanes 0))
        (avifImageScale exAlloc ⟨1, 1⟩ exImage 2 2 100).2.2 = 1 ∧
      freedAfterScale (avifImageScale exAlloc ⟨1, 1⟩ exImage 2 2 100).2.2
        (exImage.yuvPlanes 0) :=
  ((claim1_ownership_transfer exAlloc ⟨1, 1⟩ exImage 2 2 100 (by decide) (by decide)
      (by decide)).1 (by decide) (by decide)).1 rfl 0 (by decide)

/-- Claim C7: on the successful scaling path, if `depth > 8` every resampling
call uses the two-byte entry point with strides equal to the row-byte counts
divided by 2 (source row bytes for the source stride, freshly allocated row
bytes for the destination stride), and the single-byte entry point is never
called; if `depth ≤ 8` the single-byte entry point is used with the row-byte
counts unchanged, and the two-byte entry point is never called.  This covers
the YUV planes and the alpha plane. -/
theorem claim7_depth_dispatch (alloc : Allocator) (fi : avifPixelFormatInfo)
    (image : avifImage) (dw dh lim : Nat)
    (hno : ¬(image.width = dw ∧ image.height = dh))
    (hz : ¬(dw = 0 ∨ dh = 0)) (hl : dstDimensionsTooLarge dw dh lim = false)
    (hw : image.width ≤ 16384) (hh : image.height ≤ 16384)
    (hvalid : ∀ i : Fin 3, image.yuvPlanes i ≠ 0 → image.yuvPlanes 0 ≠ 0) :
    (8 < image.depth →
      (∀ i : Fin 3, image.yuvPlanes i ≠ 0 →
        ScaleEvent.scalePlane16 (image.yuvPlanes i) (image.yuvRowBytes i / 2)
            (if i = 0 then image.width else chromaDim image.width fi.chromaShiftX)
            (if i = 0 then image.height else chromaDim image.height fi.chromaShiftY)
            (alloc.yuvPtr i) (alloc.yuvRB i / 2)
            (if i = 0 then dw else chromaDim dw fi.chromaShiftX)
            (if i = 0 then dh else chromaDim dh fi.chromaShiftY) ∈
          (avifImageScale alloc fi image dw dh lim).2.2) ∧
      (image.alphaPlane ≠ 0 →
        ScaleEvent.scalePlane16 image.alphaPlane (image.alphaRowBytes / 2)
            image.width image.height alloc.alphaPtr (alloc.alphaRB / 2) dw dh ∈
          (avifImageScale alloc fi image dw dh lim).2.2) ∧
      (∀ e ∈ (avifImageScale alloc fi image dw dh lim).2.2, isScale8 e = false)) ∧
    (image.depth ≤ 8 →
      (∀ i : Fin 3, image.yuvPlanes i ≠ 0 →
        ScaleEvent.scalePlane (image.yuvPlanes i) (image.yuvRowBytes i)
            (if i = 0 then image.width else chromaDim image.width fi.chromaShiftX)
            (if i = 0 then image.height else chromaDim image.height fi.chromaShiftY)
            (alloc.yuvPtr i) (alloc.yuvRB i)
            (if i = 0 then dw else chromaDim dw fi.chromaShiftX)
            (if i = 0 then dh else chromaDim dh fi.chromaShiftY) ∈
          (avifImageScale alloc fi image dw dh lim).2.2) ∧
      (image.alphaPlane ≠ 0 →
        ScaleEvent.scalePlane image.alphaPlane image.alphaRowBytes
            image.width image.height alloc.alphaPtr alloc.alphaRB dw dh ∈
          (avifImageScale alloc fi image dw dh lim).2.2) ∧
      (∀ e ∈ (avifImageScale alloc fi image dw dh lim).2.2, isScale16 e = false)) := by
  have heq := scale_eq_success alloc fi image dw dh lim hno hz hl hw hh
  rw [heq, scalePhase_trace]
  constructor
  · intro hd
    refine ⟨?_, ?_, ?_⟩
    · intro i hi
      exact List.mem_append_left _
        (scale16_mem_yuvPhase alloc fi image _ dw dh i hi (hvalid i hi) hd)
    · intro ha
      exact List.mem_append_right _ (scale16_mem_alphaPhase alloc image _ dw dh ha hd)
    · intro e he
      rcases List.mem_append.mp he with he | he
      · exact scale8_false_yuvPhase _ _ _ _ _ _ _ hd he
      · exact scale8_false_alphaPhase _ _ _ _ _ _ hd he
  · intro hd
    have hd2 : ¬8 < image.depth := by omega
    refine ⟨?_, ?_, ?_⟩
    · intro i hi
      exact List.mem_append_left _
        (scale8_mem_yuvPhase alloc fi image _ dw dh i hi (hvalid i hi) hd2)
    · intro ha
      exact List.mem_append_right _ (scale8_mem_alphaPhase alloc image _ dw dh ha hd2)
    · intro e he
      rcases List.mem_append.mp he with he | he
      · exact scale16_false_yuvPhase _ _ _ _ _ _ _ hd2 he
      · exact scale16_false_alphaPhase _ _ _ _ _ _ hd2 he

/-- Witness for C7: the 10-bit example image dispatches its alpha plane to the
two-byte entry point with halved strides. -/
theorem claim7_witness :
    ScaleEvent.scalePlane16 exImage10.alphaPlane (exImage10.alphaRowBytes / 2)
        exImage10.width exImage10.height exAlloc.alphaPtr (exAlloc.alphaRB / 2) 2 2 ∈
      (avifImageScale exAlloc ⟨1, 1⟩ exImage10 2 2 100).2.2 :=
  ((claim7_depth_dispatch exAlloc ⟨1, 1⟩ exImage10 2 2 100 (by decide) (by decide)
      (by decide) (by decide) (by decide) (by decide)).1 (by decide)).2.1 (by decide)

/-- Claim C10: presence of the luma/chroma group is decided solely by plane 0:
with luma absent no YUV allocation, resampling or release happens (every
resampling call reads the alpha buffer, every release frees it, even if a
chroma pointer is present); with luma and alpha both absent the 16384 guard is
never applied; and an absent plane (null pointer) is never resampled or
released on any path. -/
theorem claim10_luma_gating (alloc : Allocator) (fi : avifPixelFormatInfo)
    (image : avifImage) (dw dh lim : Nat) :
    (image.yuvPlanes 0 = 0 →
      ScaleEvent.allocYUV ∉ (avifImageScale alloc fi image dw dh lim).2.2 ∧
      (∀ e ∈ (avifImageScale alloc fi image dw dh lim).2.2,
        srcPtrOf e = none ∨ srcPtrOf e = some image.alphaPlane) ∧
      (∀ p : Nat, ScaleEvent.free p ∈ (avifImageScale alloc fi image dw dh lim).2.2 →
        p = image.alphaPlane)) ∧
    (image.yuvPlanes 0 = 0 → image.alphaPlane = 0 →
      ScaleEvent.diag Diag.invalidWidthScale ∉
        (avifImageScale alloc fi image dw dh lim).2.2 ∧
      ScaleEvent.diag Diag.invalidHeightScale ∉
        (avifImageScale alloc fi image dw dh lim).2.2) ∧
    (∀ e ∈ (avifImageScale alloc fi image dw dh lim).2.2,
      srcPtrOf e ≠ some 0 ∧ e ≠ ScaleEvent.free 0) := by
  refine ⟨?_, ?_, ?_⟩
  · intro hy
    refine ⟨?_, ?_, ?_⟩
    · intro hmem
      rcases mem_scale_events alloc fi image dw dh lim _ hmem with ⟨d, hd⟩ | ⟨h0, -⟩ | ⟨-, h⟩
      · exact ScaleEvent.noConfusion hd
      · exact h0 hy
      · rcases h with h | h | ⟨-, h⟩
        · exact ScaleEvent.noConfusion h
        · simp [srcPtrOf] at h
        · exact ScaleEvent.noConfusion h
    · intro e he
      rcases mem_scale_events alloc fi image dw dh lim _ he with ⟨d, hd⟩ | ⟨h0, -⟩ | ⟨-, h⟩
      · subst hd
        exact Or.inl rfl
      · exact absurd hy h0
      · rcases h with rfl | h | ⟨-, rfl⟩
        · exact Or.inl rfl
        · exact Or.inr h
        · exact Or.inl rfl
    · intro p hmem
      rcases mem_scale_events alloc fi image dw dh lim _ hmem with ⟨d, hd⟩ | ⟨h0, -⟩ | ⟨-, h⟩
      · exact ScaleEvent.noConfusion hd
      · exact absurd hy h0
      · rcases h with h | h | ⟨-, h⟩
        · exact ScaleEvent.noConfusion h
        · simp [srcPtrOf] at h
        · injection h
  · intro hy ha
    have hgate : ¬(image.yuvPlanes 0 ≠ 0 ∨ image.alphaPlane ≠ 0) := by simp [hy, ha]
    constructor <;>
    · intro hmem
      unfold avifImageScale at hmem
      by_cases h1 : image.width = dw ∧ image.height = dh
      · rw [if_pos h1] at hmem
        simp at hmem
      · rw [if_neg h1] at hmem
        by_cases hz : dw = 0 ∨ dh = 0
        · rw [if_pos hz] at hmem
          simp at hmem
        · rw [if_neg hz] at hmem
          by_cases hl : dstDimensionsTooLarge dw dh lim = true
          · rw [if_pos hl] at hmem
            simp at hmem
          · rw [if_neg hl] at hmem
            rw [if_neg (fun h => hgate h.1), if_neg (fun h => hgate h.1)] at hmem
            exact diag_notMem_scalePhase _ _ _ _ _ _ hmem
  · intro e he
    rcases mem_scale_events alloc fi image dw dh lim _ he with ⟨d, hd⟩ | ⟨-, h⟩ | ⟨ha, h⟩
    · subst hd
      exact ⟨by simp [srcPtrOf], by simp⟩
    · rcases h with rfl | ⟨j, hj, h | ⟨-, rfl⟩⟩
      · exact ⟨by simp [srcPtrOf], by simp⟩
      · refine ⟨?_, ?_⟩
        · rw [h]
          simpa using hj
        · intro hc
          rw [hc] at h
          simp [srcPtrOf] at h
      · exact ⟨by simp [srcPtrOf], by simpa using hj⟩
    · rcases h with rfl | h | ⟨-, rfl⟩
      · exact ⟨by simp [srcPtrOf], by simp⟩
      · refine ⟨?_, ?_⟩
        · rw [h]
          simpa using ha
        · intro hc
          rw [hc] at h
          simp [srcPtrOf] at h
      · exact ⟨by simp [srcPtrOf], by simpa using ha⟩

/-- Witness for C10: on the luma-less example with a stray chroma pointer, no
YUV allocation happens and every release frees the alpha buffer. -/
theorem claim10_witness :
    ScaleEvent.allocYUV ∉ (avifImageScale exAlloc ⟨1, 1⟩ chromaStrayImage 2 2 100).2.2 ∧
    (∀ p : Nat,
      ScaleEvent.free p ∈ (avifImageScale exAlloc ⟨1, 1⟩ chromaStrayImage 2 2 100).2.2 →
      p = chromaStrayImage.alphaPlane) :=
  ⟨((claim10_luma_gating exAlloc ⟨1, 1⟩ chromaStrayImage 2 2 100).1 (by decide)).1,
    ((claim10_luma_gating exAlloc ⟨1, 1⟩ chromaStrayImage 2 2 100).1 (by decide)).2.2⟩

/-- Witness for C2: a 20000x20000 owned image rescaled to 2x2. -/
theorem claim2_witness :
    (avifImageScale exAlloc ⟨1, 1⟩ bigImage 2 2 1000000).1 = false ∧
    (avifImageScale exAlloc ⟨1, 1⟩ bigImage 2 2 1000000).2.1 = detachedImage bigImage 2 2 ∧
    (avifImageScale exAlloc ⟨1, 1⟩ bigImage 2 2 1000000).2.1.width = 2 ∧
    (avifImageScale exAlloc ⟨1, 1⟩ bigImage 2 2 1000000).2.1.height = 2 ∧
    (∀ i, (avifImageScale exAlloc ⟨1, 1⟩ bigImage 2 2 1000000).2.1.yuvPlanes i = 0 ∧
      (avifImageScale exAlloc ⟨1, 1⟩ bigImage 2 2 1000000).2.1.yuvRowBytes i = 0) ∧
    (avifImageScale exAlloc ⟨1, 1⟩ bigImage 2 2 1000000).2.1.alphaPlane = 0 ∧
    (avifImageScale exAlloc ⟨1, 1⟩ bigImage 2 2 1000000).2.1.alphaRowBytes = 0 ∧
    (avifImageScale exAlloc ⟨1, 1⟩ bigImage 2 2 1000000).2.1.imageOwnsYUVPlanes = false ∧
    (avifImageScale exAlloc ⟨1, 1⟩ bigImage 2 2 1000000).2.1.imageOwnsAlphaPlane = false :=
  claim2_guard_after_detach exAlloc ⟨1, 1⟩ bigImage 2 2 1000000 (by decide) (by decide)
    (by decide) (by decide) (by decide) (by decide) (by decide)

end AvifScale
